import Mathlib

/-!
Verification development for the MirrorX secure point-to-point transport and
pairing core.

The Rust sources embedded here are:
* `mirrorx_core/src/socket/endpoint/endpoint.rs` — the `EndPoint` session
  object, its call multiplexer, the reader/writer loops and the `NonceValue`
  nonce sequencer;
* `mirrorx_core/src/socket/client_to_client_handler.rs` — the pairing
  handshake (`connect` / `key_exchange_and_verify_password`).

Machine integers are modelled as `Nat` with explicit reductions modulo
`2 ^ w` exactly where the Rust types (`u16`, `u64`, `u128`) wrap; fallible
operations are modelled with `Except`/`Option`; the stateful `EndPoint` is
modelled by explicit state passing over `EPState`.
-/

/-! ## Little-endian byte encoding (Rust `u128::to_le_bytes`) -/

/-- `toLeBytes w m` is the list of the `w` little-endian base-256 digits of
`m`: the Lean counterpart of Rust `m.to_le_bytes()` (with `w = 16` for
`u128`) followed by truncation to `w` bytes. -/
def toLeBytes : Nat → Nat → List Nat
  | 0, _ => []
  | w + 1, m => m % 256 :: toLeBytes w (m / 256)

/-- Decode a little-endian byte list back to the natural number it encodes;
left inverse of `toLeBytes` below its range. -/
def fromLeBytes : List Nat → Nat
  | [] => 0
  | b :: bs => b + 256 * fromLeBytes bs

/-! ## Nonce sequencer (`NonceValue`, endpoint.rs lines 375-391) -/

/-- The nonce sequencer state: field `n` is the Rust `u128` counter. -/
structure NonceValue where
  n : Nat
deriving DecidableEq

/-- `NonceValue::new(n: u64)` stores `n as u128`; the argument is reduced
modulo `2 ^ 64` to reflect the `u64` parameter type. -/
def NonceValue.new (n : Nat) : NonceValue :=
  ⟨n % 2 ^ 64⟩

/-- `ring::aead::Nonce::try_assume_unique_for_key(value)` succeeds exactly
when `value` has the 96-bit nonce length (12 bytes); it performs no
uniqueness check beyond that. -/
def Nonce.try_assume_unique_for_key (value : List Nat) : Except Unit (List Nat) :=
  if value.length = 12 then Except.ok value else Except.error ()

/-- One step of `<NonceValue as NonceSequence>::advance`:
`self.n += 1; let m = self.n & 0xFFFFFFFFFFFF;
 Nonce::try_assume_unique_for_key(&m.to_le_bytes()[..12])`.
The `u128` increment is taken modulo `2 ^ 128`. Returns the successor state
together with the emitted result. -/
def NonceValue.advance (s : NonceValue) : NonceValue × Except Unit (List Nat) :=
  let n2 := (s.n + 1) % 2 ^ 128
  let m := n2 &&& 0xFFFFFFFFFFFF
  (⟨n2⟩, Nonce.try_assume_unique_for_key ((toLeBytes 16 m).take 12))

/-- The sequencer state after `k` calls to `advance`. -/
def NonceValue.advanceN (s : NonceValue) : Nat → NonceValue
  | 0 => s
  | k + 1 => ((s.advanceN k).advance).1

/-- The result emitted by call number `k + 1` to `advance` (0-indexed `k`). -/
def NonceValue.emission (s : NonceValue) (k : Nat) : Except Unit (List Nat) :=
  ((s.advanceN k).advance).2

/-! ## Message types

The message enums live in `mirrorx_core/src/socket/endpoint/message.rs` and
`mirrorx_core/src/socket/message`, which are not among the provided sources;
the variants below are exactly the ones used by the provided `endpoint.rs`
(payload contents are irrelevant to the claims and are omitted). -/

/-- Variants of `EndPointMessage` matched in `endpoint.rs`
(`Error`, `StartMediaTransmissionRequest`, `StartMediaTransmissionReply`,
`MediaFrame`). -/
inductive EndPointMessage where
  | Error
  | StartMediaTransmissionRequest
  | StartMediaTransmissionReply
  | MediaFrame
deriving DecidableEq

/-- `HandshakeStatus` as matched in `EndPoint::handshake`. -/
inductive HandshakeStatus where
  | Accepted
  | Repeated
deriving DecidableEq

/-- The reply message type matched in `EndPoint::handshake` and
`EndPoint::heartbeat`: a handshake reply carrying a status, a heartbeat
reply, or some other variant. -/
inductive SignalingToLocalMessage where
  | HandshakeReply (status : HandshakeStatus)
  | HeartBeatReply
deriving DecidableEq

/-- `EndPointMessagePacket { call_id: Option<u16>, message: EndPointMessage }`
as constructed by `EndPointMessagePacket::new` in `call` and `send`. -/
structure EndPointMessagePacket where
  call_id : Option Nat
  message : EndPointMessage
deriving DecidableEq

/-! ## EndPoint state (endpoint.rs lines 31-86)

`EndPoint` holds `atomic_call_id : AtomicU16` and
`call_reply_tx_map : DashMap<u16, Sender<EndPointMessage>>`. The map is
modelled as an association list with at most one entry per key (`dashInsert`
replaces); a `tokio::sync::mpsc` sender of capacity 1 is modelled by a
`Slot` recording whether its receiver is still alive. -/

/-- A single-slot reply destination (`Sender<EndPointMessage>` of a
capacity-1 channel). `receiverAlive` is false once the paired receiver has
been dropped, in which case `try_send` fails. -/
structure Slot where
  receiverAlive : Bool
deriving DecidableEq

/-- `DashMap::insert`: any previous entry under the same key is replaced. -/
def dashInsert (k : Nat) (v : Slot) (m : List (Nat × Slot)) : List (Nat × Slot) :=
  (k, v) :: m.filter (fun e => e.1 != k)

/-- `DashMap::remove` (drops the entry under `k`, if any). -/
def dashRemove (k : Nat) (m : List (Nat × Slot)) : List (Nat × Slot) :=
  m.filter (fun e => e.1 != k)

/-- The mutable `EndPoint` state: the `AtomicU16` call-id counter and the
pending-call registration table. -/
structure EPState where
  atomic_call_id : Nat
  call_reply_tx_map : List (Nat × Slot)
deriving DecidableEq

/-- The state installed by `EndPoint::connect` (endpoint.rs lines 78-85):
`AtomicU16::new(0)` and an empty `DashMap`. -/
def EndPoint.connectState : EPState :=
  ⟨0, []⟩

/-- `AtomicU16::fetch_add(1, SeqCst)`: returns the old value and stores the
incremented value, wrapping modulo `2 ^ 16`. -/
def fetch_add_u16 (c : Nat) : Nat × Nat :=
  (c, (c + 1) % 65536)

/-- `register_call` (endpoint.rs lines 264-268): creates a fresh capacity-1
channel (its receiver alive) and inserts the sender under `call_id`. -/
def EndPoint.register_call (st : EPState) (call_id : Nat) : EPState :=
  { st with call_reply_tx_map := dashInsert call_id ⟨true⟩ st.call_reply_tx_map }

/-- `remove_call` (endpoint.rs lines 270-272). -/
def EndPoint.remove_call (st : EPState) (call_id : Nat) : EPState :=
  { st with call_reply_tx_map := dashRemove call_id st.call_reply_tx_map }

/-- The allocation prefix of `call` (endpoint.rs lines 227-231): the atomic
fetch-and-add yielding the call id, followed by `register_call`. Returns the
allocated id and the updated state. -/
def EndPoint.callAlloc (st : EPState) : Nat × EPState :=
  let r := fetch_add_u16 st.atomic_call_id
  (r.1, EndPoint.register_call { st with atomic_call_id := r.2 } r.1)

/-- The outcome of `set_call_reply` (endpoint.rs lines 256-262). -/
inductive SetCallReplyOutcome where
  | delivered
  | dropLogged
  | noRegistration
deriving DecidableEq

/-- `set_call_reply` (endpoint.rs lines 256-262):
`self.remove_call(call_id).map(|tx| if let Err(e) = tx.try_send(message)
\x7b log \x7d)`. With no registration under `call_id` nothing happens and no
error is produced; with a registration, the entry is removed and the message
is `try_send`-delivered into the slot — a failed `try_send` (receiver gone)
is only logged, never escalated. -/
def EndPoint.set_call_reply (st : EPState) (call_id : Nat)
    (_message : EndPointMessage) : EPState × SetCallReplyOutcome :=
  match (st.call_reply_tx_map.lookup call_id : Option Slot) with
  | none => (st, SetCallReplyOutcome.noRegistration)
  | some slot =>
      (EndPoint.remove_call st call_id,
       if slot.receiverAlive then SetCallReplyOutcome.delivered
       else SetCallReplyOutcome.dropLogged)

/-- Environment outcome of one `call` invocation, resolving the suspension
points of `call` (endpoint.rs lines 222-248): the send inside the `timeout`
block failed; a reply was delivered within the window (via `set_call_reply`);
the window elapsed; or the slot sender was dropped without a message. -/
inductive CallOutcome where
  | sendFailed (err : String)
  | replied (m : EndPointMessage)
  | timedOut
  | txClosed
deriving DecidableEq

/-- Errors returned by `call`. -/
inductive CallError where
  | sendError (err : String)
  | timeout
  | txClosed
deriving DecidableEq

/-- `EndPoint::call` (endpoint.rs lines 222-248) as a state transformer:
allocate the id and register the slot, then resolve per the outcome.
On send failure the registration is removed and the send error returned;
on a reply, delivery already ran `set_call_reply` (which removed the entry)
and `rx.recv()` yields the message; on timeout the `map_err` branch removes
the registration and returns the timeout error; on a closed sender channel
the recv returns `None` and the call fails. -/
def EndPoint.call (st : EPState) (_message : EndPointMessage)
    (outcome : CallOutcome) : EPState × Except CallError EndPointMessage :=
  let alloc := EndPoint.callAlloc st
  let call_id := alloc.1
  let st1 := alloc.2
  match outcome with
  | CallOutcome.sendFailed e =>
      (EndPoint.remove_call st1 call_id, Except.error (CallError.sendError e))
  | CallOutcome.replied m =>
      ((EndPoint.set_call_reply st1 call_id m).1, Except.ok m)
  | CallOutcome.timedOut =>
      (EndPoint.remove_call st1 call_id, Except.error CallError.timeout)
  | CallOutcome.txClosed =>
      (EndPoint.remove_call st1 call_id, Except.error CallError.txClosed)

/-- Pure allocation-order model of the call-id counter: the counter value
after `i` calls have been issued on an endpoint created by `connect`. -/
def counterAfterCalls : Nat → Nat
  | 0 => EndPoint.connectState.atomic_call_id
  | i + 1 => (fetch_add_u16 (counterAfterCalls i)).2

/-- The call id consumed by call number `i + 1` (0-indexed `i`) in
allocation order. -/
def nthCallId (i : Nat) : Nat :=
  (fetch_add_u16 (counterAfterCalls i)).1

/-- The registration-only step of one in-flight `call` (its allocation
prefix), used to describe interleavings of concurrent calls. -/
def startCall (st : EPState) : EPState :=
  (EndPoint.callAlloc st).2

/-- The state after `k` concurrent calls have each run their allocation
prefix (none resolved yet), starting from the `connect` state. -/
def startIter : Nat → EPState
  | 0 => EndPoint.connectState
  | k + 1 => startCall (startIter k)

/-- The registration table with entries for ids `k-1, …, 1, 0` (most recent
first), as produced by `k` registrations of distinct fresh ids. -/
def descPairs : Nat → List (Nat × Slot)
  | 0 => []
  | k + 1 => (k, ⟨true⟩) :: descPairs k

/-- One atomic step of the endpoint state as driven by the concurrent call
tasks and the reader: a call runs its allocation prefix; a call resolves
(timeout / send failure) and removes its registration; or an inbound reply
is routed through `set_call_reply`. -/
inductive EPStep : EPState → EPState → Prop where
  | start (st : EPState) : EPStep st (startCall st)
  | resolve (st : EPState) (id : Nat) : EPStep st (EndPoint.remove_call st id)
  | reply (st : EPState) (id : Nat) (m : EndPointMessage) :
      EPStep st (EndPoint.set_call_reply st id m).1

/-- States of the endpoint reachable from the `connect` state. -/
inductive EPReachable : EPState → Prop where
  | init : EPReachable EndPoint.connectState
  | step {st st2 : EPState} : EPReachable st → EPStep st st2 → EPReachable st2

/-- The registration table holds at most one entry per call id. -/
def keysNodup (m : List (Nat × Slot)) : Prop :=
  (m.map Prod.fst).Nodup

/-! ## Inbound dispatch (endpoint.rs lines 275-317 and 353-373) -/

/-- What the per-packet dispatch task does with a decoded packet. -/
inductive DispatchAction where
  | deliveredToSlot
  | dropLogged
  | toUnsolicitedHandler
  | nothing
deriving DecidableEq

/-- `handle_signaling_to_local_message` (endpoint.rs lines 353-373): the
entire body of this function is commented out in the source, so it performs
no action at all — it neither routes the packet to a pending registration
nor hands it to any unsolicited-message handler, and it touches no state. -/
def handle_signaling_to_local_message (st : EPState)
    (_packet : EndPointMessagePacket) : EPState × DispatchAction :=
  (st, DispatchAction.nothing)

/-- Result of one iteration of the `serve_stream` reader loop
(endpoint.rs lines 275-317). -/
inductive ServeStreamOutcome where
  | exitClosed
  | exitReadError
  | exitDecryptError
  | exitDeserializeError
  | dispatched (st : EPState) (action : DispatchAction)
deriving DecidableEq

/-- One iteration of the `serve_stream` reader loop: a closed stream or a
read error ends the loop; a frame is decrypted in place (failure ends the
loop) and deserialized (failure ends the loop); a decoded packet is handed
to a spawned `handle_signaling_to_local_message` task. `decrypt` and
`deserialize` stand for `opening_key.open_in_place` and
`BINCODE_SERIALIZER.deserialize`. -/
def serve_stream_step (st : EPState)
    (frame : Option (Except Unit (List Nat)))
    (decrypt : List Nat → Except Unit (List Nat))
    (deserialize : List Nat → Except Unit EndPointMessagePacket) :
    ServeStreamOutcome :=
  match frame with
  | none => ServeStreamOutcome.exitClosed
  | some (Except.error _) => ServeStreamOutcome.exitReadError
  | some (Except.ok packet_bytes) =>
      match decrypt packet_bytes with
      | Except.error _ => ServeStreamOutcome.exitDecryptError
      | Except.ok plaintext =>
          match deserialize plaintext with
          | Except.error _ => ServeStreamOutcome.exitDeserializeError
          | Except.ok packet =>
              let r := handle_signaling_to_local_message st packet
              ServeStreamOutcome.dispatched r.1 r.2

/-! ## Outbound queue (endpoint.rs lines 63 and 250-254) -/

/-- The outbound queue bound fixed by `tokio::sync::mpsc::channel(128)` in
`EndPoint::connect` (endpoint.rs line 63). -/
def outboundQueueCapacity : Nat := 128

/-- Result of `tokio::sync::mpsc::Sender::send(value).await` on the bounded
outbound channel: it errors only when the receiver has been dropped; with a
live receiver it enqueues when a permit is free and otherwise suspends the
caller until capacity becomes available — it never discards the value and
never returns a queue-full error. -/
inductive MpscSendResult where
  | enqueued
  | suspendedUntilCapacity
  | closed
deriving DecidableEq

/-- `Sender::send` on the outbound channel, given the current queue length
and whether the receiver (the `serve_sink` writer loop) is still alive. -/
def tokioMpscSend (queueLen : Nat) (receiverAlive : Bool) : MpscSendResult :=
  if receiverAlive = false then MpscSendResult.closed
  else if queueLen < outboundQueueCapacity then MpscSendResult.enqueued
  else MpscSendResult.suspendedUntilCapacity

/-- What `EndPoint::send` (endpoint.rs lines 250-254) does to its caller. -/
inductive SendResult where
  | ok
  | serializeError
  | channelClosed
  | suspendedUntilCapacity
deriving DecidableEq

/-- `EndPoint::send`: serialize the packet (a serialization failure is
returned), then `packet_tx.send(buffer).await`. -/
def EndPoint.send (serializeOk : Bool) (queueLen : Nat)
    (receiverAlive : Bool) : SendResult :=
  if serializeOk = false then SendResult.serializeError
  else
    match tokioMpscSend queueLen receiverAlive with
    | MpscSendResult.enqueued => SendResult.ok
    | MpscSendResult.closed => SendResult.channelClosed
    | MpscSendResult.suspendedUntilCapacity => SendResult.suspendedUntilCapacity

/-! ## EndPoint::handshake (endpoint.rs lines 96-112) -/

/-- Errors produced by `EndPoint::handshake`: the two explicit
`bail!` branches, and errors propagated from `call` by `?` (transport-level
failures: send failure, timeout, closed channel). -/
inductive HandshakeError where
  | repeated
  | mismatchedReply
  | callFailed (e : CallError)
deriving DecidableEq

/-- `EndPoint::handshake` given the result of its inner `call`: a
transport-level call failure propagates; a handshake reply with status
`Accepted` is success; status `Repeated` is the explicit
"handshake: repeated" outcome; any other reply variant is the
"handshake: mismatched reply message" protocol error. -/
def EndPoint.handshake
    (callResult : Except CallError SignalingToLocalMessage) :
    Except HandshakeError Unit :=
  match callResult with
  | Except.error e => Except.error (HandshakeError.callFailed e)
  | Except.ok reply =>
      match reply with
      | SignalingToLocalMessage.HandshakeReply status =>
          match status with
          | HandshakeStatus.Accepted => Except.ok ()
          | HandshakeStatus.Repeated => Except.error HandshakeError.repeated
      | _ => Except.error HandshakeError.mismatchedReply

/-! ## Pairing handshake: key_exchange_and_verify_password
(client_to_client_handler.rs lines 36-158)

The cryptographic primitives (RSA decryption, X25519, HKDF-SHA512, the
system RNG) are kept abstract in a `CryptoEnv`; the control flow, buffer
handling and reply construction are translated from the source. -/

/-- `KeyExchangeAndVerifyPasswordRequest`
(fields used by the handler: `password_secret`, `exchange_pub_key`,
`exchange_salt`). -/
structure KeyExchangeAndVerifyPasswordRequest where
  password_secret : List Nat
  exchange_pub_key : List Nat
  exchange_salt : List Nat
deriving DecidableEq

/-- `KeyExchangeAndVerifyPasswordReply`; its `Default` instance has
`success = false` and empty byte vectors. -/
structure KeyExchangeAndVerifyPasswordReply where
  success : Bool
  exchange_pub_key : List Nat
  exchange_salt : List Nat
deriving DecidableEq

/-- `KeyExchangeAndVerifyPasswordReply::default()`. -/
def KeyExchangeAndVerifyPasswordReply.default : KeyExchangeAndVerifyPasswordReply :=
  ⟨false, [], []⟩

/-- Abstract cryptographic collaborators of
`key_exchange_and_verify_password`. Private keys and key material are
abstracted as `Nat` tokens; byte strings as `List Nat`. -/
structure CryptoEnv where
  /-- `ConfigProvider::current()?.read_device_password()?`: a provider or
  read error, or the optional stored password. -/
  read_device_password : Except String (Option String)
  /-- `endpoint.cache().take::<RsaPrivateKey>(PasswordVerifyPrivateKey)`. -/
  cached_private_key : Option Nat
  /-- `priv_key.decrypt(PKCS1v15Encrypt, data)`. -/
  rsa_decrypt : Nat → List Nat → Except String (List Nat)
  /-- `String::from_utf8`. -/
  utf8_decode : List Nat → Except String String
  /-- `EphemeralPrivateKey::generate(&X25519, rng)`. -/
  x25519_generate : Except String Nat
  /-- `local_private_key.compute_public_key()`. -/
  compute_public_key : Nat → Except String (List Nat)
  /-- `SecureRandom::fill(dest)`: fills exactly `dest.len()` bytes; the
  function returns the bytes written for a destination of the given
  length. -/
  secure_random_fill : Nat → List Nat
  /-- `agree_ephemeral(local_private_key, &remote_public_key, …)`: the raw
  shared key material, or `Unspecified`. -/
  agree_x25519 : Nat → List Nat → Except Unit (List Nat)
  /-- `hkdf::Salt::new(HKDF_SHA512, salt).extract(ikm).expand([""],
  CHACHA20_POLY1305)`: the output key material for the given salt and input
  key material. -/
  hkdf_sha512 : List Nat → List Nat → List Nat

/-- `ring::aead::CHACHA20_POLY1305.key_len()`. -/
def CHACHA20_POLY1305_key_len : Nat := 32

/-- `Vec::<u8>::with_capacity(n)` allocates capacity `n` but has length 0. -/
def vec_with_capacity (_n : Nat) : List Nat := []

/-- `ring::hkdf::Okm::fill(out)`: fails (`Unspecified`) unless
`out.len()` equals the key length of the okm (32 for ChaCha20-Poly1305);
on success `out` holds the okm bytes. -/
def Okm.fill (okm : List Nat) (out : List Nat) : Except Unit (List Nat) :=
  if out.length = CHACHA20_POLY1305_key_len then Except.ok okm else Except.error ()

/-- `key_exchange_and_verify_password`
(client_to_client_handler.rs lines 36-158), with the source control flow:
read the local password (unset or unreadable is fatal); take the cached RSA
private key (a miss is fatal); decrypt and UTF-8-decode the request password
(failures fatal); on mismatch return `success: false` with the default (empty)
key material; on match generate the ephemeral X25519 key, compute its public
key, create the salt buffer with `Vec::with_capacity(32)` (length 0!) and
fill it, agree on shared key material and derive the two keys through
HKDF-SHA512 into `Vec::with_capacity(32)` buffers via `Okm::fill`, then
reply with `success: true`, the public key and the salt. -/
def key_exchange_and_verify_password (env : CryptoEnv)
    (req : KeyExchangeAndVerifyPasswordRequest) :
    Except String KeyExchangeAndVerifyPasswordReply := do
  let passwordOpt ← env.read_device_password
  let local_password ← match passwordOpt with
    | some pw => pure pw
    | none => Except.error "key_exchange_and_verify_password: local password not set, refuse request"
  let priv_key ← match env.cached_private_key with
    | some k => pure k
    | none => Except.error "key_exchange_and_verify_password: no private key found"
  let req_password_bytes ← Except.mapError
    (fun e => "key_exchange_and_verify_password: decrypt password secret failed: " ++ e)
    (env.rsa_decrypt priv_key req.password_secret)
  let req_password ← Except.mapError
    (fun e => "key_exchange_and_verify_password: parse local password bytes to utf8 failed: " ++ e)
    (env.utf8_decode req_password_bytes)
  if req_password ≠ local_password then
    return { KeyExchangeAndVerifyPasswordReply.default with success := false }
  let local_private_key ← Except.mapError
    (fun e => "key_exchange_and_verify_password: generate ephemeral private key failed: " ++ e)
    env.x25519_generate
  let local_public_key ← Except.mapError
    (fun e => "key_exchange_and_verify_password: compute public key failed: " ++ e)
    (env.compute_public_key local_private_key)
  let exchange_pub_key := local_public_key
  let salt_buffer := vec_with_capacity 32
  let exchange_salt := env.secure_random_fill salt_buffer.length
  let agreed : Except Unit (List Nat × List Nat) :=
    (env.agree_x25519 local_private_key req.exchange_pub_key).bind fun key_material =>
      (Okm.fill (env.hkdf_sha512 req.exchange_salt key_material)
          (vec_with_capacity 32)).bind fun send_key =>
        (Okm.fill (env.hkdf_sha512 exchange_salt key_material)
            (vec_with_capacity 32)).map fun recv_key =>
          (send_key, recv_key)
  match agreed with
  | Except.error _ => Except.error "key_exchange_and_verify_password: agree ephemeral key failed"
  | Except.ok _keys =>
      return { success := true
               exchange_pub_key := exchange_pub_key
               exchange_salt := exchange_salt }

/-- A concrete environment in which every cryptographic collaborator
succeeds: the stored password is "secret123", the cached key is present,
decryption recovers the request bytes, UTF-8 decoding yields "secret123",
key generation, public-key computation and key agreement all succeed, and
HKDF produces a 32-byte okm. -/
def happyEnv : CryptoEnv where
  read_device_password := Except.ok (some "secret123")
  cached_private_key := some 1
  rsa_decrypt := fun _ s => Except.ok s
  utf8_decode := fun _ => Except.ok "secret123"
  x25519_generate := Except.ok 7
  compute_public_key := fun _ => Except.ok (List.replicate 32 9)
  secure_random_fill := fun n => List.replicate n 5
  agree_x25519 := fun _ _ => Except.ok (List.replicate 32 3)
  hkdf_sha512 := fun _ _ => List.replicate 32 4

/-- A concrete verify-step request for the failing-input evaluation. -/
def happyRequest : KeyExchangeAndVerifyPasswordRequest :=
  ⟨List.replicate 512 1, List.replicate 32 2, List.replicate 32 6⟩

/-- Environment in which the decrypted request password ("wrong") differs
from the stored password ("secret123"). -/
def mismatchEnv : CryptoEnv :=
  { happyEnv with utf8_decode := fun _ => Except.ok "wrong" }

/-- Environment in which the cached private key has already been consumed
(cache miss at verification time). -/
def cacheMissEnv : CryptoEnv :=
  { happyEnv with cached_private_key := none }

/-- Environment in which RSA decryption of the password secret fails. -/
def decryptFailEnv : CryptoEnv :=
  { happyEnv with rsa_decrypt := fun _ _ => Except.error "decryption error" }

/-! ## Helper lemmas on byte encodings and the sequencer -/

theorem toLeBytes_length (w : Nat) : ∀ m, (toLeBytes w m).length = w := by
  induction w with
  | zero => intro m; rfl
  | succ w ih => intro m; simp [toLeBytes, ih]

theorem toLeBytes_take (w k : Nat) :
    ∀ m, (toLeBytes (w + k) m).take w = toLeBytes w m := by
  induction w with
  | zero => intro m; simp [toLeBytes]
  | succ w ih =>
      intro m
      have : w + 1 + k = (w + k) + 1 := by omega
      rw [this]
      simp [toLeBytes, List.take_succ_cons, ih]

theorem fromLeBytes_toLeBytes (w : Nat) :
    ∀ m, fromLeBytes (toLeBytes w m) = m % 256 ^ w := by
  induction w with
  | zero => intro m; simp [toLeBytes, fromLeBytes, Nat.mod_one]
  | succ w ih =>
      intro m
      have h256 : (256 : Nat) ^ (w + 1) = 256 * 256 ^ w := by
        rw [pow_succ, Nat.mul_comm]
      rw [toLeBytes, fromLeBytes, ih, h256, Nat.mod_mul]

theorem toLeBytes_injOn {w a b : Nat} (ha : a < 256 ^ w) (hb : b < 256 ^ w)
    (h : toLeBytes w a = toLeBytes w b) : a = b := by
  have := congrArg fromLeBytes h
  rw [fromLeBytes_toLeBytes, fromLeBytes_toLeBytes,
    Nat.mod_eq_of_lt ha, Nat.mod_eq_of_lt hb] at this
  exact this

theorem NonceValue.advance_fst (s : NonceValue) :
    (s.advance).1 = ⟨(s.n + 1) % 2 ^ 128⟩ := rfl

theorem NonceValue.advance_snd (s : NonceValue) :
    (s.advance).2 = Nonce.try_assume_unique_for_key
      ((toLeBytes 16 (((s.n + 1) % 2 ^ 128) &&& 0xFFFFFFFFFFFF)).take 12) := rfl

theorem NonceValue.advanceN_eq (n0 : Nat) :
    ∀ k, (NonceValue.new n0).advanceN k = ⟨(n0 % 2 ^ 64 + k) % 2 ^ 128⟩ := by
  intro k
  induction k with
  | zero =>
      show NonceValue.new n0 = _
      rw [NonceValue.new]
      congr 1
      omega
  | succ k ih =>
      show ((NonceValue.new n0).advanceN k).advance.1 = _
      rw [ih, NonceValue.advance_fst]
      congr 1
      show ((n0 % 2 ^ 64 + k) % 2 ^ 128 + 1) % 2 ^ 128
        = (n0 % 2 ^ 64 + (k + 1)) % 2 ^ 128
      omega

theorem NonceValue.emission_eq (n0 k : Nat) (h0 : n0 < 2 ^ 64) (hk : k ≤ 2 ^ 48) :
    (NonceValue.new n0).emission k
      = Except.ok (toLeBytes 12 ((n0 + k + 1) % 2 ^ 48)) := by
  have hlt : n0 + k + 1 < 2 ^ 128 := by
    have h2 : (2 : Nat) ^ 64 + 2 ^ 48 + 1 < 2 ^ 128 := by norm_num
    omega
  have h1 : (NonceValue.new n0).advanceN k = ⟨(n0 + k) % 2 ^ 128⟩ := by
    rw [NonceValue.advanceN_eq, Nat.mod_eq_of_lt h0]
  rw [NonceValue.emission, h1, NonceValue.advance_snd]
  have hstep : (((⟨(n0 + k) % 2 ^ 128⟩ : NonceValue).n + 1) % 2 ^ 128) = n0 + k + 1 := by
    show ((n0 + k) % 2 ^ 128 + 1) % 2 ^ 128 = n0 + k + 1
    omega
  rw [hstep]
  have hmask : (n0 + k + 1) &&& 0xFFFFFFFFFFFF = (n0 + k + 1) % 2 ^ 48 := by
    have h15 : (0xFFFFFFFFFFFF : Nat) = 2 ^ 48 - 1 := by norm_num
    rw [h15]
    exact Nat.and_pow_two_sub_one_eq_mod (n0 + k + 1) 48
  rw [hmask]
  have htake : (toLeBytes 16 ((n0 + k + 1) % 2 ^ 48)).take 12
      = toLeBytes 12 ((n0 + k + 1) % 2 ^ 48) := toLeBytes_take 12 4 _
  rw [htake]
  simp [Nonce.try_assume_unique_for_key, toLeBytes_length]

/-! ## Association-list (DashMap) lemmas -/

theorem lookup_filter_ne (k : Nat) (m : List (Nat × Slot)) :
    List.lookup k (m.filter (fun e => e.1 != k)) = none := by
  induction m with
  | nil => rfl
  | cons a t ih =>
      by_cases h : a.1 = k
      · have hb : (a.1 != k) = false := by simp [h]
        simp only [List.filter, hb]
        exact ih
      · have hb : (a.1 != k) = true := bne_iff_ne.mpr h
        have hbeq : (k == a.1) = false := beq_eq_false_iff_ne.mpr (Ne.symm h)
        simp only [List.filter, hb, List.lookup, hbeq]
        exact ih

theorem map_fst_filter_ne (k : Nat) (m : List (Nat × Slot)) :
    (m.filter (fun e => e.1 != k)).map Prod.fst
      = (m.map Prod.fst).filter (fun x => x != k) := by
  induction m with
  | nil => rfl
  | cons a t ih =>
      by_cases h : a.1 = k
      · have hb : (a.1 != k) = false := by simp [h]
        simp only [List.filter, List.map_cons, hb]
        exact ih
      · have hb : (a.1 != k) = true := bne_iff_ne.mpr h
        simp only [List.filter, List.map_cons, hb]
        rw [ih]

theorem lookup_dashInsert_self (k : Nat) (v : Slot) (m : List (Nat × Slot)) :
    List.lookup k (dashInsert k v m) = some v := by
  simp [dashInsert, List.lookup]

theorem keysNodup_dashInsert (k : Nat) (v : Slot) (m : List (Nat × Slot))
    (h : keysNodup m) : keysNodup (dashInsert k v m) := by
  unfold keysNodup dashInsert
  rw [List.map_cons, map_fst_filter_ne, List.nodup_cons]
  constructor
  · intro hmem
    have h2 := (List.mem_filter.mp hmem).2
    simp [bne_iff_ne] at h2
  · exact List.Nodup.filter _ h

theorem keysNodup_dashRemove (k : Nat) (m : List (Nat × Slot))
    (h : keysNodup m) : keysNodup (dashRemove k m) := by
  unfold keysNodup dashRemove
  rw [map_fst_filter_ne]
  exact List.Nodup.filter _ h

theorem keysNodup_set_call_reply (st : EPState) (id : Nat) (m : EndPointMessage)
    (h : keysNodup st.call_reply_tx_map) :
    keysNodup (EndPoint.set_call_reply st id m).1.call_reply_tx_map := by
  rw [EndPoint.set_call_reply]
  cases hl : (List.lookup id st.call_reply_tx_map) with
  | none => exact h
  | some slot => exact keysNodup_dashRemove id _ h

/-! ## Lemmas on the concurrent-registration trace -/

theorem lookup_descPairs_zero : ∀ k, List.lookup 0 (descPairs (k + 1)) = some ⟨true⟩ := by
  intro k
  induction k with
  | zero => rfl
  | succ k ih => exact ih

theorem descPairs_filter (j : Nat) : ∀ k, k ≤ j →
    (descPairs k).filter (fun e => e.1 != j) = descPairs k := by
  intro k
  induction k with
  | zero => intro h; rfl
  | succ k ih =>
      intro h
      have h1 : k ≠ j := by omega
      have hb : (k != j) = true := bne_iff_ne.mpr h1
      simp only [descPairs, List.filter, hb]
      rw [ih (by omega)]

theorem startIter_eq : ∀ k, k ≤ 65536 → startIter k = ⟨k % 65536, descPairs k⟩ := by
  intro k
  induction k with
  | zero => intro h; rfl
  | succ k ih =>
      intro h
      have hklt : k < 65536 := by omega
      rw [startIter, ih (by omega)]
      show (EndPoint.callAlloc ⟨k % 65536, descPairs k⟩).2 = _
      rw [Nat.mod_eq_of_lt hklt]
      show (⟨(k + 1) % 65536, dashInsert k ⟨true⟩ (descPairs k)⟩ : EPState) = _
      rw [dashInsert, descPairs_filter k k (le_refl k)]
      rfl

theorem counterAfterCalls_eq : ∀ i, counterAfterCalls i = i % 65536 := by
  intro i
  induction i with
  | zero => rfl
  | succ i ih =>
      rw [counterAfterCalls, ih]
      show (i % 65536 + 1) % 65536 = (i + 1) % 65536
      omega

/-! ## Claim theorems -/

/-- C1: the claim states that a verify-step request whose decrypted password
matches the stored password yields a success reply carrying the fresh
ephemeral public key, the fresh salt, and two HKDF-SHA512-derived 256-bit
AEAD keys. The code instead fails on this path: `exchange_salt` and both key
buffers are created with `Vec::with_capacity(32)` — length 0 — so
`SecureRandom::fill` fills no salt bytes and `Okm::fill` rejects the
zero-length output buffer, making the whole `agree_ephemeral` block return
an error. Evaluated here in the concrete environment `happyEnv` in which the
passwords match and every cryptographic collaborator succeeds. -/
theorem key_exchange_matched_password_returns_error :
    key_exchange_and_verify_password happyEnv happyRequest
      = Except.error "key_exchange_and_verify_password: agree ephemeral key failed" := by
  rfl

/-- C2: each `advance` call increments the 128-bit counter by one (conjunct
1), emits the low 48 bits of the counter as a 12-byte little-endian value —
i.e. the 48-bit value zero-extended to 96 bits (conjuncts 2-4: the 12 bytes
decode back to the sub-`2 ^ 48` counter residue) — and within the first
`N ≤ 2 ^ 48` calls all emitted nonce values are pairwise distinct
(conjunct 5). -/
theorem nonce_sequencer_distinct_within_cap (n0 N i j : Nat) (h0 : n0 < 2 ^ 64)
    (hN : N ≤ 2 ^ 48) (hi : i < N) (hj : j < N) (hij : i ≠ j) :
    ((NonceValue.new n0).advanceN (i + 1)).n = n0 + i + 1 ∧
    (NonceValue.new n0).emission i = Except.ok (toLeBytes 12 ((n0 + i + 1) % 2 ^ 48)) ∧
    fromLeBytes (toLeBytes 12 ((n0 + i + 1) % 2 ^ 48)) = (n0 + i + 1) % 2 ^ 48 ∧
    (n0 + i + 1) % 2 ^ 48 < 2 ^ 48 ∧
    (NonceValue.new n0).emission i ≠ (NonceValue.new n0).emission j := by
  have hi48 : i ≤ 2 ^ 48 := by omega
  have hj48 : j ≤ 2 ^ 48 := by omega
  refine ⟨?_, NonceValue.emission_eq n0 i h0 hi48, ?_, ?_, ?_⟩
  · rw [NonceValue.advanceN_eq]
    show (n0 % 2 ^ 64 + (i + 1)) % 2 ^ 128 = n0 + i + 1
    omega
  · rw [fromLeBytes_toLeBytes]
    have ha : (n0 + i + 1) % 2 ^ 48 < 256 ^ 12 := by
      have h1 := Nat.mod_lt (n0 + i + 1) (show 0 < 2 ^ 48 by norm_num)
      have h2 : (2 : Nat) ^ 48 < 256 ^ 12 := by norm_num
      omega
    exact Nat.mod_eq_of_lt ha
  · exact Nat.mod_lt _ (by norm_num)
  · rw [NonceValue.emission_eq n0 i h0 hi48, NonceValue.emission_eq n0 j h0 hj48]
    intro heq
    have hbytes : toLeBytes 12 ((n0 + i + 1) % 2 ^ 48)
        = toLeBytes 12 ((n0 + j + 1) % 2 ^ 48) := Except.ok.inj heq
    have ha : (n0 + i + 1) % 2 ^ 48 < 256 ^ 12 := by
      have h1 := Nat.mod_lt (n0 + i + 1) (show 0 < 2 ^ 48 by norm_num)
      have h2 : (2 : Nat) ^ 48 < 256 ^ 12 := by norm_num
      omega
    have hb : (n0 + j + 1) % 2 ^ 48 < 256 ^ 12 := by
      have h1 := Nat.mod_lt (n0 + j + 1) (show 0 < 2 ^ 48 by norm_num)
      have h2 : (2 : Nat) ^ 48 < 256 ^ 12 := by norm_num
      omega
    have heqv := toLeBytes_injOn ha hb hbytes
    omega

/-- C2 witness: the theorem instantiated at initial value 0, `N = 2`,
calls 1 and 2. -/
theorem nonce_sequencer_distinct_within_cap_witness :
    (0 : Nat) < 2 ^ 64 ∧ (2 : Nat) ≤ 2 ^ 48 ∧
    (((NonceValue.new 0).advanceN (0 + 1)).n = 0 + 0 + 1 ∧
     (NonceValue.new 0).emission 0 = Except.ok (toLeBytes 12 ((0 + 0 + 1) % 2 ^ 48)) ∧
     fromLeBytes (toLeBytes 12 ((0 + 0 + 1) % 2 ^ 48)) = (0 + 0 + 1) % 2 ^ 48 ∧
     (0 + 0 + 1) % 2 ^ 48 < 2 ^ 48 ∧
     (NonceValue.new 0).emission 0 ≠ (NonceValue.new 0).emission 1) :=
  ⟨by norm_num, by norm_num,
   nonce_sequencer_distinct_within_cap 0 2 0 1 (by norm_num) (by norm_num)
     (by norm_num) (by norm_num) (by norm_num)⟩

/-- C3: the claim states that exceeding the `2 ^ 48` emission cap raises a
fatal error instead of wrapping back into a previously emitted value. The
code does the opposite: starting from initial value 0, emission number
`2 ^ 48 + 1` succeeds (no error is ever raised — the length check in
`try_assume_unique_for_key` always passes) and re-emits exactly the nonce of
emission number 1, because `& 0xFFFFFFFFFFFF` wraps the counter. -/
theorem nonce_advance_wraps_and_reemits :
    (NonceValue.new 0).emission (2 ^ 48) = (NonceValue.new 0).emission 0 ∧
    ((NonceValue.new 0).emission (2 ^ 48)).isOk = true := by
  have h1 := NonceValue.emission_eq 0 0 (by norm_num) (by norm_num)
  have h2 := NonceValue.emission_eq 0 (2 ^ 48) (by norm_num) (le_refl _)
  have hmod : (0 + 2 ^ 48 + 1) % 2 ^ 48 = (0 + 0 + 1) % 2 ^ 48 := by omega
  constructor
  · rw [h1, h2, hmod]
  · rw [h2]
    rfl

/-- C4: the claim states that a decoded inbound packet whose call id matches
a pending registration is delivered to that slot, and an id-less or
unmatched packet is handed to the unsolicited-message handler. In the code
the body of `handle_signaling_to_local_message` is entirely commented out:
at a state holding a live registration for call id 0 (third conjunct), a
successfully decrypted and deserialized packet carrying call id 0 produces
no delivery and invokes no handler — the dispatch action is `nothing`. -/
theorem inbound_dispatch_performs_no_delivery :
    serve_stream_step ⟨1, [(0, ⟨true⟩)]⟩ (some (Except.ok [42]))
        (fun b => Except.ok b) (fun _ => Except.ok ⟨some 0, EndPointMessage.Error⟩)
      = ServeStreamOutcome.dispatched ⟨1, [(0, ⟨true⟩)]⟩ DispatchAction.nothing ∧
    handle_signaling_to_local_message ⟨1, [(0, ⟨true⟩)]⟩ ⟨some 0, EndPointMessage.Error⟩
      = (⟨1, [(0, ⟨true⟩)]⟩, DispatchAction.nothing) ∧
    List.lookup 0 ((⟨1, [(0, ⟨true⟩)]⟩ : EPState)).call_reply_tx_map = some ⟨true⟩ ∧
    DispatchAction.nothing ≠ DispatchAction.deliveredToSlot ∧
    DispatchAction.nothing ≠ DispatchAction.toUnsolicitedHandler := by
  refine ⟨rfl, rfl, rfl, by decide, by decide⟩

/-- C5: a call resolving by timeout returns the call-timeout error and its
registration is removed (lookup is `none`), and a reply arriving afterwards
is dropped by `set_call_reply` with no error and no state change; a call
whose send fails returns the send error and likewise removes its
registration, with the same late-reply behaviour. -/
theorem call_failure_removes_registration_late_reply_dropped
    (st : EPState) (m r : EndPointMessage) (e : String) :
    ((EndPoint.call st m CallOutcome.timedOut).2 = Except.error CallError.timeout ∧
     List.lookup st.atomic_call_id
        ((EndPoint.call st m CallOutcome.timedOut).1).call_reply_tx_map = none ∧
     EndPoint.set_call_reply (EndPoint.call st m CallOutcome.timedOut).1 st.atomic_call_id r
       = ((EndPoint.call st m CallOutcome.timedOut).1, SetCallReplyOutcome.noRegistration)) ∧
    ((EndPoint.call st m (CallOutcome.sendFailed e)).2 = Except.error (CallError.sendError e) ∧
     List.lookup st.atomic_call_id
        ((EndPoint.call st m (CallOutcome.sendFailed e)).1).call_reply_tx_map = none ∧
     EndPoint.set_call_reply (EndPoint.call st m (CallOutcome.sendFailed e)).1 st.atomic_call_id r
       = ((EndPoint.call st m (CallOutcome.sendFailed e)).1, SetCallReplyOutcome.noRegistration)) := by
  have hlook1 : List.lookup st.atomic_call_id
      ((EndPoint.call st m CallOutcome.timedOut).1).call_reply_tx_map = none := by
    show List.lookup st.atomic_call_id
        (dashRemove st.atomic_call_id
          (dashInsert st.atomic_call_id ⟨true⟩ st.call_reply_tx_map)) = none
    rw [dashRemove]
    exact lookup_filter_ne _ _
  have hlook2 : List.lookup st.atomic_call_id
      ((EndPoint.call st m (CallOutcome.sendFailed e)).1).call_reply_tx_map = none := by
    show List.lookup st.atomic_call_id
        (dashRemove st.atomic_call_id
          (dashInsert st.atomic_call_id ⟨true⟩ st.call_reply_tx_map)) = none
    rw [dashRemove]
    exact lookup_filter_ne _ _
  refine ⟨⟨rfl, hlook1, ?_⟩, ⟨rfl, hlook2, ?_⟩⟩
  · rw [EndPoint.set_call_reply]
    simp only [hlook1]
  · rw [EndPoint.set_call_reply]
    simp only [hlook2]

/-- C5 witness: the theorem instantiated at the `connect` state with
concrete message, reply and error. -/
theorem call_failure_removes_registration_late_reply_dropped_witness :
    ((EndPoint.call EndPoint.connectState EndPointMessage.Error CallOutcome.timedOut).2
       = Except.error CallError.timeout ∧
     List.lookup EndPoint.connectState.atomic_call_id
        ((EndPoint.call EndPoint.connectState EndPointMessage.Error
            CallOutcome.timedOut).1).call_reply_tx_map = none ∧
     EndPoint.set_call_reply
        (EndPoint.call EndPoint.connectState EndPointMessage.Error CallOutcome.timedOut).1
        EndPoint.connectState.atomic_call_id EndPointMessage.Error
       = ((EndPoint.call EndPoint.connectState EndPointMessage.Error CallOutcome.timedOut).1,
          SetCallReplyOutcome.noRegistration)) ∧
    ((EndPoint.call EndPoint.connectState EndPointMessage.Error
        (CallOutcome.sendFailed "boom")).2
       = Except.error (CallError.sendError "boom") ∧
     List.lookup EndPoint.connectState.atomic_call_id
        ((EndPoint.call EndPoint.connectState EndPointMessage.Error
            (CallOutcome.sendFailed "boom")).1).call_reply_tx_map = none ∧
     EndPoint.set_call_reply
        (EndPoint.call EndPoint.connectState EndPointMessage.Error
          (CallOutcome.sendFailed "boom")).1
        EndPoint.connectState.atomic_call_id EndPointMessage.Error
       = ((EndPoint.call EndPoint.connectState EndPointMessage.Error
            (CallOutcome.sendFailed "boom")).1,
          SetCallReplyOutcome.noRegistration)) :=
  call_failure_removes_registration_late_reply_dropped EndPoint.connectState
    EndPointMessage.Error EndPointMessage.Error "boom"

/-- C6: a verify-step request whose decrypted password differs from the
stored password yields the well-formed reply `success: false` with empty key
material — an `Except.ok`, not an error (first conjunct); a miss on the
cached private key is a fatal error (second conjunct); a failure to decrypt
the password secret is a fatal error (third conjunct). -/
theorem verify_password_mismatch_and_fatal_paths
    (env : CryptoEnv) (req : KeyExchangeAndVerifyPasswordRequest)
    (pw pw2 : String) (k : Nat) (bs : List Nat) (e : String) :
    (env.read_device_password = Except.ok (some pw) →
     env.cached_private_key = some k →
     env.rsa_decrypt k req.password_secret = Except.ok bs →
     env.utf8_decode bs = Except.ok pw2 →
     pw2 ≠ pw →
     key_exchange_and_verify_password env req = Except.ok ⟨false, [], []⟩) ∧
    (env.read_device_password = Except.ok (some pw) →
     env.cached_private_key = none →
     key_exchange_and_verify_password env req
       = Except.error "key_exchange_and_verify_password: no private key found") ∧
    (env.read_device_password = Except.ok (some pw) →
     env.cached_private_key = some k →
     env.rsa_decrypt k req.password_secret = Except.error e →
     key_exchange_and_verify_password env req
       = Except.error
          ("key_exchange_and_verify_password: decrypt password secret failed: " ++ e)) := by
  refine ⟨?_, ?_, ?_⟩
  · intro h1 h2 h3 h4 h5
    simp [key_exchange_and_verify_password, h1, h2, h3, h4, h5,
      Except.mapError, KeyExchangeAndVerifyPasswordReply.default,
      Except.instMonad, Except.bind, pure, Except.pure]
  · intro h1 h2
    simp [key_exchange_and_verify_password, h1, h2,
      Except.instMonad, Except.bind, pure, Except.pure]
  · intro h1 h2 h3
    simp [key_exchange_and_verify_password, h1, h2, h3, Except.mapError,
      Except.instMonad, Except.bind, pure, Except.pure]

/-- C6 witness: the three branches evaluated in concrete environments — a
mismatching password ("wrong" vs stored "secret123"), a consumed key cache,
and a failing RSA decryption. -/
theorem verify_password_mismatch_and_fatal_paths_witness :
    key_exchange_and_verify_password mismatchEnv happyRequest
      = Except.ok ⟨false, [], []⟩ ∧
    key_exchange_and_verify_password cacheMissEnv happyRequest
      = Except.error "key_exchange_and_verify_password: no private key found" ∧
    key_exchange_and_verify_password decryptFailEnv happyRequest
      = Except.error
          ("key_exchange_and_verify_password: decrypt password secret failed: "
            ++ "decryption error") :=
  ⟨(verify_password_mismatch_and_fatal_paths mismatchEnv happyRequest
      "secret123" "wrong" 1 (List.replicate 512 1) "x").1 rfl rfl rfl rfl (by decide),
   (verify_password_mismatch_and_fatal_paths cacheMissEnv happyRequest
      "secret123" "wrong" 1 [] "x").2.1 rfl rfl,
   (verify_password_mismatch_and_fatal_paths decryptFailEnv happyRequest
      "secret123" "wrong" 1 [] "decryption error").2.2 rfl rfl rfl⟩

/-- C7 counterexample: a reachable state in which a call id is reused while
its registration is live. After 65536 concurrent calls have each run their
allocation prefix without resolving (a legal interleaving of `call` tasks),
the registration for call id 0 is still live, yet the wrapped `AtomicU16`
counter makes the next allocation hand out id 0 again. -/
theorem call_id_reused_while_registration_live :
    List.lookup 0 (startIter 65536).call_reply_tx_map = some ⟨true⟩ ∧
    (EndPoint.callAlloc (startIter 65536)).1 = 0 ∧
    List.lookup 0 ((startCall (startIter 65536)).call_reply_tx_map) = some ⟨true⟩ := by
  have h := startIter_eq 65536 (le_refl _)
  refine ⟨?_, ?_, ?_⟩
  · rw [h]
    show List.lookup 0 (descPairs 65536) = some ⟨true⟩
    exact lookup_descPairs_zero 65535
  · rw [h]
    show (65536 : Nat) % 65536 = 0
    norm_num
  · rw [startCall, h]
    show List.lookup 0
        (dashInsert (65536 % 65536) ⟨true⟩ (descPairs 65536)) = some ⟨true⟩
    norm_num
    exact lookup_dashInsert_self 0 ⟨true⟩ (descPairs 65536)

/-- C7 amended: at every reachable endpoint state the pending-calls table
holds at most one live entry per call id (the keys are pairwise distinct);
however, a call id CAN be reused for a new registration while an entry for
that id is live — once the 16-bit counter wraps — in which case
`DashMap::insert` silently replaces the live entry with the fresh slot
(second conjunct: after the allocation prefix the allocated id maps to the
fresh slot, whatever was there before). -/
theorem pending_table_unique_keys_and_reuse_overwrites
    (st : EPState) (h : EPReachable st) :
    keysNodup st.call_reply_tx_map ∧
    List.lookup (EndPoint.callAlloc st).1
        ((EndPoint.callAlloc st).2.call_reply_tx_map) = some ⟨true⟩ := by
  have hnodup : keysNodup st.call_reply_tx_map := by
    induction h with
    | init => exact List.nodup_nil
    | step hr hs ih =>
        cases hs with
        | start => exact keysNodup_dashInsert _ _ _ ih
        | resolve id => exact keysNodup_dashRemove _ _ ih
        | reply id m => exact keysNodup_set_call_reply _ _ _ ih
  exact ⟨hnodup, lookup_dashInsert_self _ _ _⟩

/-- C7 amended witness: the theorem at the `connect` state. -/
theorem pending_table_unique_keys_and_reuse_overwrites_witness :
    keysNodup EndPoint.connectState.call_reply_tx_map ∧
    List.lookup (EndPoint.callAlloc EndPoint.connectState).1
        ((EndPoint.callAlloc EndPoint.connectState).2.call_reply_tx_map)
      = some ⟨true⟩ :=
  pending_table_unique_keys_and_reuse_overwrites EndPoint.connectState EPReachable.init

/-- C8: a handshake reply with status `Accepted` yields success; status
`Repeated` ("already paired") yields the distinct `repeated` outcome, which
is not a transport-level call failure for any transport error; a reply of a
mismatched type yields the `mismatchedReply` protocol error, likewise
distinct from every transport-level call failure; transport-level call
errors propagate as such. -/
theorem handshake_reply_classification :
    EndPoint.handshake (Except.ok
        (SignalingToLocalMessage.HandshakeReply HandshakeStatus.Accepted))
      = Except.ok () ∧
    EndPoint.handshake (Except.ok
        (SignalingToLocalMessage.HandshakeReply HandshakeStatus.Repeated))
      = Except.error HandshakeError.repeated ∧
    EndPoint.handshake (Except.ok SignalingToLocalMessage.HeartBeatReply)
      = Except.error HandshakeError.mismatchedReply ∧
    (∀ e : CallError,
      EndPoint.handshake (Except.error e)
        = Except.error (HandshakeError.callFailed e)) ∧
    (∀ e : CallError, HandshakeError.repeated ≠ HandshakeError.callFailed e) ∧
    (∀ e : CallError, HandshakeError.mismatchedReply ≠ HandshakeError.callFailed e) := by
  refine ⟨rfl, rfl, rfl, fun e => rfl, fun e h2 => ?_, fun e h2 => ?_⟩
  · cases h2
  · cases h2

/-- C8 witness: the classification instantiated at concrete replies and the
concrete transport error `timeout`. -/
theorem handshake_reply_classification_witness :
    EndPoint.handshake (Except.ok
        (SignalingToLocalMessage.HandshakeReply HandshakeStatus.Accepted))
      = Except.ok () ∧
    EndPoint.handshake (Except.error CallError.timeout)
      = Except.error (HandshakeError.callFailed CallError.timeout) ∧
    HandshakeError.repeated ≠ HandshakeError.callFailed CallError.timeout :=
  ⟨handshake_reply_classification.1,
   handshake_reply_classification.2.2.2.1 CallError.timeout,
   handshake_reply_classification.2.2.2.2.1 CallError.timeout⟩

/-- C9 counterexample: the claim states that a full outbound queue surfaces
a failure to the caller of `send`. In the code `EndPoint::send` uses the
awaiting `Sender::send`, so on a full queue with a healthy writer loop the
caller is suspended until capacity frees — the result is neither a
serialization error, nor a closed-channel error, nor a completed send: no
failure is surfaced (and a bare `send` has no timeout bounding the wait). -/
theorem send_on_full_queue_surfaces_no_failure :
    EndPoint.send true outboundQueueCapacity true = SendResult.suspendedUntilCapacity ∧
    SendResult.suspendedUntilCapacity ≠ SendResult.serializeError ∧
    SendResult.suspendedUntilCapacity ≠ SendResult.channelClosed ∧
    SendResult.suspendedUntilCapacity ≠ SendResult.ok := by
  refine ⟨rfl, by decide, by decide, by decide⟩

/-- C9 amended: the outbound queue is bounded at 128 entries; a payload
accepted by `send` with a live writer loop is never dropped — it is either
enqueued or the caller waits for capacity; and a `call` whose send never
completes within its window resolves via its own timeout error with its
registration removed. A bare (fire-and-forget) `send` on a persistently full
queue, however, blocks without surfacing a queue-full failure. -/
theorem outbound_queue_bounded_send_blocks_call_times_out
    (qlen : Nat) (st : EPState) (m : EndPointMessage) :
    outboundQueueCapacity = 128 ∧
    (EndPoint.send true qlen true = SendResult.ok ∨
     EndPoint.send true qlen true = SendResult.suspendedUntilCapacity) ∧
    (EndPoint.call st m CallOutcome.timedOut).2 = Except.error CallError.timeout ∧
    List.lookup st.atomic_call_id
        ((EndPoint.call st m CallOutcome.timedOut).1).call_reply_tx_map = none := by
  refine ⟨rfl, ?_, rfl, ?_⟩
  · by_cases hq : qlen < outboundQueueCapacity
    · left
      simp [EndPoint.send, tokioMpscSend, hq]
    · right
      simp [EndPoint.send, tokioMpscSend, hq]
  · show List.lookup st.atomic_call_id
        (dashRemove st.atomic_call_id
          (dashInsert st.atomic_call_id ⟨true⟩ st.call_reply_tx_map)) = none
    rw [dashRemove]
    exact lookup_filter_ne _ _

/-- C9 amended witness: the theorem instantiated at a full queue and the
`connect` state. -/
theorem outbound_queue_bounded_send_blocks_call_times_out_witness :
    outboundQueueCapacity = 128 ∧
    (EndPoint.send true 128 true = SendResult.ok ∨
     EndPoint.send true 128 true = SendResult.suspendedUntilCapacity) ∧
    (EndPoint.call EndPoint.connectState EndPointMessage.Error CallOutcome.timedOut).2
      = Except.error CallError.timeout ∧
    List.lookup EndPoint.connectState.atomic_call_id
        ((EndPoint.call EndPoint.connectState EndPointMessage.Error
            CallOutcome.timedOut).1).call_reply_tx_map = none :=
  outbound_queue_bounded_send_blocks_call_times_out 128 EndPoint.connectState
    EndPointMessage.Error

/-- C10: the call-id counter of a `connect`-produced endpoint starts at 0;
call number `i + 1` in allocation order consumes id `i % 65536` (the
claim's 1-indexed "(i-1) mod 65536"); every `call` invocation consumes
exactly one id by the atomic fetch-and-add regardless of its outcome
(timeout, send failure, reply, or closed channel); and reply delivery never
touches the counter, so ids are never returned to the pool. -/
theorem call_id_allocation_sequence (i : Nat) (st : EPState)
    (m r : EndPointMessage) (outcome : CallOutcome) (id : Nat) :
    EndPoint.connectState.atomic_call_id = 0 ∧
    counterAfterCalls i = i % 65536 ∧
    nthCallId i = i % 65536 ∧
    (EndPoint.call st m outcome).1.atomic_call_id = (st.atomic_call_id + 1) % 65536 ∧
    (EndPoint.set_call_reply st id r).1.atomic_call_id = st.atomic_call_id := by
  refine ⟨rfl, counterAfterCalls_eq i, ?_, ?_, ?_⟩
  · show counterAfterCalls i = i % 65536
    exact counterAfterCalls_eq i
  · cases outcome with
    | sendFailed e => rfl
    | replied m2 =>
        show (EndPoint.set_call_reply _ _ m2).1.atomic_call_id = _
        rw [EndPoint.set_call_reply]
        cases hl : ((EndPoint.callAlloc st).2.call_reply_tx_map.lookup
            (EndPoint.callAlloc st).1 : Option Slot) with
        | none => rfl
        | some slot => rfl
    | timedOut => rfl
    | txClosed => rfl
  · rw [EndPoint.set_call_reply]
    cases hl : (st.call_reply_tx_map.lookup id : Option Slot) with
    | none => rfl
    | some slot => rfl

/-- C10 witness: the allocation facts at call number 1 from the `connect`
state with a concrete outcome. -/
theorem call_id_allocation_sequence_witness :
    EndPoint.connectState.atomic_call_id = 0 ∧
    counterAfterCalls 0 = 0 % 65536 ∧
    nthCallId 0 = 0 % 65536 ∧
    (EndPoint.call EndPoint.connectState EndPointMessage.Error
        CallOutcome.timedOut).1.atomic_call_id
      = (EndPoint.connectState.atomic_call_id + 1) % 65536 ∧
    (EndPoint.set_call_reply EndPoint.connectState 0
        EndPointMessage.Error).1.atomic_call_id
      = EndPoint.connectState.atomic_call_id :=
  call_id_allocation_sequence 0 EndPoint.connectState EndPointMessage.Error
    EndPointMessage.Error CallOutcome.timedOut 0
